import Mathlib

set_option maxRecDepth 8000

/-!
Verification development for the Morocco-Weather-Azure ingestion pipeline
(`src/function_app.py`), batched Open-Meteo variant.

The pipeline is embedded shallowly:
* an Open-Meteo per-location sub-response (`response.Hourly()`) is a record of
  its unix start time, end time, sampling interval and positional variable
  value arrays;
* `pd.date_range(start, end, freq, inclusive="left")` becomes `dateRange`;
* the `pd.DataFrame` construction for one city becomes `normalizeOne`, which
  fails exactly where pandas raises (zero frequency, missing variable arrays,
  column length mismatch);
* the enumeration loop over responses with `CITIES[i]` indexing becomes
  `normLoop`, failing with an index error when the city list is exhausted;
* `pd.concat` (which raises on an empty list) becomes `concatRows`;
* `df.to_csv(index=False)` becomes `toCsv`;
* the environment lookup, blob client construction and upload are modelled by
  an `Env` record carrying the outcome of each external interaction, and the
  whole `try` block becomes `pipelineBody`;
* the timer entry point with its catch-all `except` becomes
  `weather_ingestion_openmeteo`, returning a `RunResult` (success with the
  written blob name and CSV payload, or a logged error with no artifact).

Variable values travel through the pipeline untouched; they are modelled as
rationals.
-/

namespace MoroccoWeather

/-- One registered location: name and coordinates (from the `CITIES` list). -/
structure City where
  name : String
  lat : Rat
  lon : Rat
deriving DecidableEq, Repr

/-- The static 20-city registry (source lines 20-41). -/
def CITIES : List City := [
  ⟨"Casablanca", 33.5731, -7.5898⟩,
  ⟨"Rabat", 34.0209, -6.8416⟩,
  ⟨"Marrakech", 31.6295, -7.9811⟩,
  ⟨"Fès", 34.0331, -5.0003⟩,
  ⟨"Tanger", 35.7595, -5.8340⟩,
  ⟨"Meknès", 34.2610, -6.5802⟩,
  ⟨"Agadir", 30.4278, -9.5981⟩,
  ⟨"Safi", 32.2994, -9.2372⟩,
  ⟨"Beni Mellal", 32.3373, -6.3498⟩,
  ⟨"Nador", 35.1681, -2.9335⟩,
  ⟨"Mohammedia", 33.6874, -7.3820⟩,
  ⟨"Tétouan", 35.5722, -5.3724⟩,
  ⟨"El Jadida", 33.2316, -8.5007⟩,
  ⟨"Oujda", 34.6867, -1.9114⟩,
  ⟨"Ouarzazate", 30.9189, -6.8934⟩,
  ⟨"Essaouira", 31.5085, -9.7595⟩,
  ⟨"Tiznit", 29.6974, -9.7316⟩,
  ⟨"Al Hoceima", 35.2517, -3.9370⟩,
  ⟨"Laâyoune", 27.1510, -13.1990⟩,
  ⟨"Dakhla", 23.6848, -15.9570⟩]

/-- City names in registry order, as read by `CITIES[i]["name"]`. -/
def cityNames : List String := CITIES.map City.name

/-- The fixed 20-element `hourly` variable list of the request (lines 51-57). -/
def hourlyVariableNames : List String := [
  "temperature_2m", "relative_humidity_2m", "apparent_temperature", "precipitation",
  "rain", "snowfall", "snow_depth", "wind_speed_10m", "wind_direction_10m",
  "wind_gusts_10m", "is_day", "dew_point_2m", "pressure_msl", "surface_pressure",
  "cloud_cover", "cloud_cover_low", "cloud_cover_mid", "cloud_cover_high",
  "shortwave_radiation", "direct_radiation"]

/-- The `daily` variable list of the request (line 58). -/
def dailyVariableNames : List String := ["sunrise", "sunset", "precipitation_hours"]

/-- One per-location sub-response of the batched call: `response.Hourly()`
exposes a declared unix start time, end time, sampling interval (seconds) and
the positional value arrays `Variables(0) .. Variables(k-1)`. -/
structure HourlyResponse where
  time : Nat
  timeEnd : Nat
  interval : Nat
  Variables : List (List Rat)
deriving DecidableEq, Repr

/-- One normalized row of the DataFrame built at lines 79-102: the timestamp
column, the 20 hourly variable values in column order, and the city tag. -/
structure ObservationRecord where
  datetime_utc : Nat
  values : List Rat
  city : String
deriving DecidableEq, Repr

/-- Model of `pd.date_range(start, end, freq=step seconds, inclusive="left")`
on unix timestamps: the arithmetic progression `start, start+step, ...` of every point
strictly below `stop` (half-open window).  For `stop ≤ start` it is empty. -/
def dateRange (start stop step : Nat) : List Nat :=
  (List.range ((stop - start + step - 1) / step)).map (fun k => start + k * step)

/-- The DataFrame column names, transcribed from the dict keys in
construction order (lines 80-101). -/
def dfColumnNames : List String := [
  "datetime_utc",
  "temperature_2m", "relative_humidity_2m", "apparent_temperature", "precipitation",
  "rain", "snowfall", "snow_depth", "wind_speed_10m", "wind_direction_10m",
  "wind_gusts_10m", "is_day", "dew_point_2m", "pressure_msl", "surface_pressure",
  "cloud_cover", "cloud_cover_low", "cloud_cover_mid", "cloud_cover_high",
  "shortwave_radiation", "direct_radiation",
  "city"]

/-- Normalization of one sub-response into records for one city (the
`pd.date_range` + `pd.DataFrame` block, lines 71-102).  Fails exactly where
the Python raises: a zero sampling interval (invalid `freq`), fewer than 20
variable arrays (`Variables(k)` returns `None`), or a variable array whose
length differs from the timestamp column's (pandas rejects ragged columns). -/
def normalizeOne (resp : HourlyResponse) (city : String) :
    Except String (List ObservationRecord) :=
  if resp.interval = 0 then
    Except.error "ValueError: invalid frequency"
  else
    let dates := dateRange resp.time resp.timeEnd resp.interval
    if resp.Variables.length < 20 then
      Except.error "AttributeError: NoneType object has no attribute ValuesAsNumpy"
    else
      let cols := resp.Variables.take 20
      if cols.all (fun col => col.length = dates.length) then
        Except.ok ((List.range dates.length).map (fun j =>
          { datetime_utc := dates.getD j 0
            values := cols.map (fun col => col.getD j 0)
            city := city }))
      else
        Except.error "ValueError: All arrays must be of the same length"

/-- The `for i, response in enumerate(responses)` loop (lines 67-106), walking
the responses in provider order while consuming the city registry; reaching
the end of the registry with responses left models the `CITIES[i]` index
error. -/
def normLoop : List HourlyResponse → List String →
    Except String (List (List ObservationRecord))
  | [], _ => Except.ok []
  | _ :: _, [] => Except.error "IndexError: list index out of range"
  | r :: rs, c :: cs =>
    match normalizeOne r c with
    | Except.error e => Except.error e
    | Except.ok recs =>
      match normLoop rs cs with
      | Except.error e => Except.error e
      | Except.ok gs => Except.ok (recs :: gs)

/-- Model of `pd.concat(all_data, ignore_index=True)` (line 109): raises on an empty
list of frames, otherwise stacks the per-city record groups in order. -/
def concatRows (groups : List (List ObservationRecord)) :
    Except String (List ObservationRecord) :=
  if groups.isEmpty then Except.error "ValueError: No objects to concatenate"
  else Except.ok groups.flatten

/-- Zero-padded two-digit rendering, as `%02d` / `strftime` produce. -/
def pad2 (n : Nat) : String :=
  if n < 10 then "0" ++ Nat.repr n else Nat.repr n

/-- Zero-padded four-digit rendering (year field of a pandas timestamp). -/
def pad4 (n : Nat) : String :=
  if n < 10 then "000" ++ Nat.repr n
  else if n < 100 then "00" ++ Nat.repr n
  else if n < 1000 then "0" ++ Nat.repr n
  else Nat.repr n

/-- Civil date from a day count since 1970-01-01 (proleptic Gregorian). -/
def civilFromDays (days : Nat) : Nat × Nat × Nat :=
  let z := days + 719468
  let era := z / 146097
  let doe := z % 146097
  let yoe := (doe - doe / 1460 + doe / 36524 - doe / 146096) / 365
  let y := yoe + era * 400
  let doy := doe - (365 * yoe + yoe / 4 - yoe / 100)
  let mp := (5 * doy + 2) / 153
  let d := doy - (153 * mp + 2) / 5 + 1
  let m := if mp < 10 then mp + 3 else mp - 9
  (if m ≤ 2 then y + 1 else y, m, d)

/-- The `datetime_utc` CSV cell: pandas renders a UTC timestamp as
`YYYY-MM-DD HH:MM:SS+00:00`. -/
def formatTimestampCell (t : Nat) : String :=
  let ymd := civilFromDays (t / 86400)
  let secs := t % 86400
  pad4 ymd.1 ++ "-" ++ pad2 ymd.2.1 ++ "-" ++ pad2 ymd.2.2 ++ " " ++
    pad2 (secs / 3600) ++ ":" ++ pad2 (secs % 3600 / 60) ++ ":" ++
    pad2 (secs % 60) ++ "+00:00"

/-- One CSV data row: timestamp cell, the 20 value cells, the city cell. -/
def recordToCsvRow (r : ObservationRecord) : String :=
  String.intercalate ","
    (formatTimestampCell r.datetime_utc :: r.values.map toString ++ [r.city])

/-- Model of `final_df.to_csv(index=False)` (line 110): the comma-joined header line
followed by one newline-terminated row per record. -/
def toCsv (rows : List ObservationRecord) : String :=
  String.intercalate "," dfColumnNames ++ "\n" ++
    String.join (rows.map (fun r => recordToCsvRow r ++ "\n"))

/-- The wall-clock components read from `datetime.utcnow()` (line 116). -/
structure UtcNow where
  year : Nat
  month : Nat
  day : Nat
  hour : Nat
  minute : Nat
deriving DecidableEq, Repr

/-- Model of `now.strftime("%H%M")`: hour and minute, each zero-padded to two
digits. -/
def strftimeHM (t : UtcNow) : String := pad2 t.hour ++ pad2 t.minute

/-- The blob name f-string of line 117, exactly as the code builds it. -/
def blobName (t : UtcNow) : String :=
  "ingestion-v2/" ++ Nat.repr t.year ++ "/" ++ pad2 t.month ++ "/" ++
    pad2 t.day ++ "/weather_" ++ strftimeHM t ++ ".csv"

/-- The spec's partition-key template, transcribed from its own words:
`ingestion-v2/\x7byear\x7d/\x7bmonth:02\x7d/\x7bday:02\x7d/weather_\x7bhour:02\x7d\x7bminute:02\x7d.csv`. -/
def specPartitionKey (t : UtcNow) : String :=
  "ingestion-v2/" ++ Nat.repr t.year ++ "/" ++ pad2 t.month ++ "/" ++
    pad2 t.day ++ "/weather_" ++ pad2 t.hour ++ pad2 t.minute ++ ".csv"

/-- One run's external interactions: the outcome of the single batched fetch,
the `AzureWebJobsStorage` environment variable (absent models `KeyError`),
whether blob-service-client construction and the blob upload succeed, and the
`datetime.utcnow()` reading. -/
structure Env where
  fetch : Except String (List HourlyResponse)
  azureWebJobsStorage : Option String
  blobServiceOk : Bool
  uploadOk : Bool
  now : UtcNow

/-- The body of the `try` block (lines 63-122): every failing step short-
circuits to an error that the surrounding handler will log. -/
def pipelineBody (env : Env) : Except String (String × String) :=
  match env.fetch with
  | Except.error e => Except.error e
  | Except.ok responses =>
    match normLoop responses cityNames with
    | Except.error e => Except.error e
    | Except.ok groups =>
      match concatRows groups with
      | Except.error e => Except.error e
      | Except.ok finalRows =>
        let csvData := toCsv finalRows
        match env.azureWebJobsStorage with
        | none => Except.error "KeyError: AzureWebJobsStorage"
        | some _ =>
          if env.blobServiceOk then
            if env.uploadOk then Except.ok (blobName env.now, csvData)
            else Except.error "SinkError: blob upload failed"
          else Except.error "RuntimeError: BlobServiceClient construction failed"

/-- Outcome of one timer-triggered run: a successful upload of one CSV blob,
or a logged error with nothing written. -/
inductive RunResult where
  | success (blob : String) (csvData : String)
  | loggedError (message : String)
deriving DecidableEq, Repr

/-- The timer entry point (lines 44-125): the catch-all `except` turns any
error raised inside the `try` block into a logged, normal return. -/
def weather_ingestion_openmeteo (env : Env) : RunResult :=
  match pipelineBody env with
  | Except.ok p => RunResult.success p.1 p.2
  | Except.error e => RunResult.loggedError e

/-- The artifacts a run writes to the `weather-raw` container: one
(blob name, payload) pair on success, none on a logged error. -/
def artifactsOf : RunResult → List (String × String)
  | RunResult.success b c => [(b, c)]
  | RunResult.loggedError _ => []

/-! ### Concrete fixtures used to exercise the pipeline -/

/-- A sub-response whose window (5 s) is not a multiple of its sampling
interval (2 s). -/
def raggedWindowResponse : HourlyResponse :=
  ⟨0, 5, 2, List.replicate 20 [0, 0, 0]⟩

/-- Fixture sub-response: 3 hourly timestamps from 2024-03-01T00:00Z. -/
def fixtureResponse : HourlyResponse :=
  ⟨1709251200, 1709262000, 3600,
    (List.range 20).map (fun k => [(k : Rat), k + 1, k + 2])⟩

/-- A second fixture sub-response carrying different values. -/
def fixtureResponse2 : HourlyResponse :=
  ⟨1709251200, 1709262000, 3600,
    (List.range 20).map (fun k => [(k : Rat) + 100, k + 101, k + 102])⟩

/-- The records `normalizeOne` extracts from `fixtureResponse` for the first
registered city. -/
def fixtureRecords : List ObservationRecord :=
  (normalizeOne fixtureResponse "Casablanca").toOption.getD []

/-- The records `normalizeOne` extracts from `fixtureResponse2` for the
second registered city. -/
def fixtureRecords2 : List ObservationRecord :=
  (normalizeOne fixtureResponse2 "Rabat").toOption.getD []

/-- The spec's example sub-response: 24 hourly timestamps covering
2024-03-01. -/
def scenarioResponse : HourlyResponse :=
  ⟨1709251200, 1709337600, 3600,
    List.replicate 20 ((List.range 24).map (fun k => (k : Rat)))⟩

/-- The spec's example run: clock 2024-03-01T14:00Z, 20 locations each with
24 hourly timestamps, all external interactions succeeding. -/
def scenarioEnv : Env :=
  ⟨Except.ok (List.replicate 20 scenarioResponse),
    some "UseDevelopmentStorage=true", true, true, ⟨2024, 3, 1, 14, 0⟩⟩

/-- A run whose single upstream call fails. -/
def fetchFailEnv : Env :=
  ⟨Except.error "FetchError: HTTPSConnectionPool timeout",
    some "UseDevelopmentStorage=true", true, true, ⟨2024, 3, 1, 14, 0⟩⟩

/-- A sub-response whose first variable array is shorter (1 value) than its
timestamp sequence (2 timestamps). -/
def shortArrayResponse : HourlyResponse :=
  ⟨0, 7200, 3600, [(0 : Rat)] :: List.replicate 19 [0, 0]⟩

/-- A run whose only sub-response carries the short variable array. -/
def badLengthEnv : Env :=
  ⟨Except.ok [shortArrayResponse], some "UseDevelopmentStorage=true",
    true, true, ⟨2024, 3, 1, 14, 0⟩⟩

/-- A two-city run used as a small end-to-end fixture. -/
def twoCityEnv : Env :=
  ⟨Except.ok [fixtureResponse, fixtureResponse2],
    some "UseDevelopmentStorage=true", true, true, ⟨2024, 3, 1, 14, 0⟩⟩

/-- The two-city run again, with a different connection string but the same
provider data and the same clock reading. -/
def twoCityEnvAlt : Env :=
  ⟨Except.ok [fixtureResponse, fixtureResponse2],
    some "DefaultEndpointsProtocol=https;AccountName=other",
    true, true, ⟨2024, 3, 1, 14, 0⟩⟩

/-- The per-city record groups of the two-city fixture run. -/
def twoCityGroups : List (List ObservationRecord) :=
  (normLoop [fixtureResponse, fixtureResponse2] cityNames).toOption.getD []

/-- A run where the provider returns 21 sub-responses for the 20 cities. -/
def tooManyEnv : Env :=
  ⟨Except.ok (List.replicate 21 fixtureResponse),
    some "UseDevelopmentStorage=true", true, true, ⟨2024, 3, 1, 14, 0⟩⟩

end MoroccoWeather

namespace MoroccoWeather

/-! ### Arithmetic facts about the half-open timestamp range -/

lemma dateRange_length (start stop step : Nat) :
    (dateRange start stop step).length = (stop - start + step - 1) / step := by
  simp [dateRange]

lemma ceil_div_eq_of_dvd {d step : Nat} (hpos : 0 < step) (hdvd : step ∣ d) :
    (d + step - 1) / step = d / step := by
  obtain ⟨q, rfl⟩ := hdvd
  have h1 : step * q + step - 1 = (step - 1) + q * step := by
    rw [Nat.mul_comm]
    omega
  rw [h1, Nat.add_mul_div_right _ _ hpos, Nat.div_eq_of_lt (by omega),
    Nat.mul_comm, Nat.mul_div_cancel _ hpos]
  omega

lemma dateRange_getElem (start stop step k : Nat)
    (h : k < (dateRange start stop step).length) :
    (dateRange start stop step)[k] = start + k * step := by
  simp [dateRange]

lemma mem_dateRange {start stop step t : Nat} (hpos : 0 < step)
    (ht : t ∈ dateRange start stop step) : start ≤ t ∧ t < stop := by
  simp only [dateRange, List.mem_map, List.mem_range] at ht
  obtain ⟨k, hk, rfl⟩ := ht
  refine ⟨Nat.le_add_right _ _, ?_⟩
  have h1 : k + 1 ≤ (stop - start + step - 1) / step := hk
  rw [Nat.le_div_iff_mul_le hpos, Nat.succ_mul] at h1
  generalize k * step = m at h1 ⊢
  omega

lemma range_map_getD {α : Type} (l : List α) (d : α) :
    (List.range l.length).map (fun j => l.getD j d) = l := by
  apply List.ext_getElem
  · simp
  · intro n h1 h2
    simp [List.getD_eq_getElem?_getD, List.getElem?_eq_getElem h2]

/-! ### Characterization of `normalizeOne` -/

lemma normalizeOne_ok_iff (resp : HourlyResponse) (c : String)
    (recs : List ObservationRecord) :
    normalizeOne resp c = Except.ok recs ↔
      resp.interval ≠ 0 ∧ 20 ≤ resp.Variables.length ∧
      (∀ col ∈ resp.Variables.take 20,
        col.length = (dateRange resp.time resp.timeEnd resp.interval).length) ∧
      recs = (List.range (dateRange resp.time resp.timeEnd resp.interval).length).map
        (fun j => ⟨(dateRange resp.time resp.timeEnd resp.interval).getD j 0,
          (resp.Variables.take 20).map (fun col => col.getD j 0), c⟩) := by
  simp only [normalizeOne]
  split_ifs with h1 h2 h3
  · constructor
    · intro h
      exact h.elim
    · rintro ⟨hne, -⟩
      exact absurd h1 hne
  · constructor
    · intro h
      exact h.elim
    · rintro ⟨-, hle, -⟩
      omega
  · constructor
    · intro h
      injection h with h'
      refine ⟨h1, by omega, ?_, h'.symm⟩
      intro col hcol
      have := List.all_eq_true.mp h3 col hcol
      simpa using this
    · rintro ⟨-, -, -, rfl⟩
      rfl
  · constructor
    · intro h
      exact h.elim
    · rintro ⟨-, -, hall, -⟩
      refine absurd ?_ h3
      rw [List.all_eq_true]
      intro col hcol
      simpa using hall col hcol

lemma normalizeOne_interval_pos {resp : HourlyResponse} {c : String}
    {recs : List ObservationRecord} (h : normalizeOne resp c = Except.ok recs) :
    0 < resp.interval := by
  obtain ⟨h0, -⟩ := (normalizeOne_ok_iff resp c recs).mp h
  omega

lemma normalizeOne_length {resp : HourlyResponse} {c : String}
    {recs : List ObservationRecord} (h : normalizeOne resp c = Except.ok recs) :
    recs.length = (dateRange resp.time resp.timeEnd resp.interval).length := by
  obtain ⟨-, -, -, rfl⟩ := (normalizeOne_ok_iff resp c recs).mp h
  simp

lemma normalizeOne_datetime {resp : HourlyResponse} {c : String}
    {recs : List ObservationRecord} (h : normalizeOne resp c = Except.ok recs) :
    recs.map ObservationRecord.datetime_utc =
      dateRange resp.time resp.timeEnd resp.interval := by
  obtain ⟨-, -, -, rfl⟩ := (normalizeOne_ok_iff resp c recs).mp h
  rw [List.map_map]
  exact range_map_getD (dateRange resp.time resp.timeEnd resp.interval) 0

lemma normalizeOne_city {resp : HourlyResponse} {c : String}
    {recs : List ObservationRecord} (h : normalizeOne resp c = Except.ok recs) :
    ∀ rec ∈ recs, rec.city = c := by
  obtain ⟨-, -, -, rfl⟩ := (normalizeOne_ok_iff resp c recs).mp h
  intro rec hrec
  simp only [List.mem_map, List.mem_range] at hrec
  obtain ⟨j, -, rfl⟩ := hrec
  rfl

lemma normalizeOne_getElem {resp : HourlyResponse} {c : String}
    {recs : List ObservationRecord} (h : normalizeOne resp c = Except.ok recs)
    (j : Nat) (hj : j < recs.length) :
    recs[j].datetime_utc = resp.time + j * resp.interval ∧
    recs[j].values = (resp.Variables.take 20).map (fun col => col.getD j 0) ∧
    recs[j].city = c := by
  have hlen := normalizeOne_length h
  obtain ⟨-, -, -, hrecs⟩ := (normalizeOne_ok_iff resp c recs).mp h
  subst hrecs
  have hj' : j < (dateRange resp.time resp.timeEnd resp.interval).length := by
    simpa using hj
  refine ⟨?_, ?_, ?_⟩
  · simp only [List.getElem_map, List.getElem_range]
    rw [List.getD_eq_getElem?_getD, List.getElem?_eq_getElem hj',
      Option.getD_some, dateRange_getElem]
  · simp [List.getElem_map, List.getElem_range]
  · simp [List.getElem_map, List.getElem_range]

end MoroccoWeather

namespace MoroccoWeather

/-! ### Characterization of the enumeration loop -/

lemma normLoop_nil (cs : List String) : normLoop [] cs = Except.ok [] := by
  cases cs <;> rfl

lemma normLoop_ok_shape :
    ∀ {rs : List HourlyResponse} {cs : List String}
      {gs : List (List ObservationRecord)},
      normLoop rs cs = Except.ok gs →
      gs.length = rs.length ∧ rs.length ≤ cs.length := by
  intro rs
  induction rs with
  | nil =>
    intro cs gs h
    rw [normLoop_nil] at h
    injection h with h'
    simp [← h']
  | cons r rs ih =>
    intro cs gs h
    cases cs with
    | nil => exact Except.noConfusion h
    | cons c cs' =>
      rw [normLoop] at h
      cases hn : normalizeOne r c with
      | error e => rw [hn] at h; exact Except.noConfusion h
      | ok recs =>
        rw [hn] at h
        cases hl : normLoop rs cs' with
        | error e => rw [hl] at h; exact Except.noConfusion h
        | ok gs' =>
          rw [hl] at h
          injection h with h'
          obtain ⟨h1, h2⟩ := ih hl
          simp [← h', h1]
          omega

lemma normLoop_ok_getElem :
    ∀ {rs : List HourlyResponse} {cs : List String}
      {gs : List (List ObservationRecord)},
      normLoop rs cs = Except.ok gs →
      ∀ i (h1 : i < rs.length) (h2 : i < cs.length) (h3 : i < gs.length),
        normalizeOne rs[i] cs[i] = Except.ok gs[i] := by
  intro rs
  induction rs with
  | nil =>
    intro cs gs _ i h1
    exact absurd h1 (by simp)
  | cons r rs ih =>
    intro cs gs h i h1 h2 h3
    cases cs with
    | nil => exact Except.noConfusion h
    | cons c cs' =>
      rw [normLoop] at h
      cases hn : normalizeOne r c with
      | error e => rw [hn] at h; exact Except.noConfusion h
      | ok recs =>
        rw [hn] at h
        cases hl : normLoop rs cs' with
        | error e => rw [hl] at h; exact Except.noConfusion h
        | ok gs' =>
          rw [hl] at h
          injection h with h'
          subst h'
          cases i with
          | zero => simpa using hn
          | succ i' =>
            simp only [List.getElem_cons_succ]
            exact ih hl i' (by simpa using h1) (by simpa using h2)
              (by simpa using h3)

lemma normLoop_error_of_lt :
    ∀ (rs : List HourlyResponse) (cs : List String),
      cs.length < rs.length → ∃ e, normLoop rs cs = Except.error e := by
  intro rs
  induction rs with
  | nil =>
    intro cs h
    exact absurd h (by simp)
  | cons r rs ih =>
    intro cs h
    cases cs with
    | nil => exact ⟨"IndexError: list index out of range", rfl⟩
    | cons c cs' =>
      cases hn : normalizeOne r c with
      | error e => exact ⟨e, by rw [normLoop, hn]⟩
      | ok recs =>
        obtain ⟨e, he⟩ := ih cs' (by simpa using h)
        exact ⟨e, by rw [normLoop, hn, he]⟩

lemma normLoop_error_of_bad :
    ∀ {rs : List HourlyResponse} (cs : List String) {r : HourlyResponse},
      r ∈ rs → (∀ c recs, normalizeOne r c ≠ Except.ok recs) →
      ∃ e, normLoop rs cs = Except.error e := by
  intro rs
  induction rs with
  | nil =>
    intro cs r hr
    exact absurd hr (by simp)
  | cons r' rs ih =>
    intro cs r hr hbad
    cases cs with
    | nil => exact ⟨"IndexError: list index out of range", rfl⟩
    | cons c cs' =>
      cases hn : normalizeOne r' c with
      | error e => exact ⟨e, by rw [normLoop, hn]⟩
      | ok recs =>
        have hne : r ≠ r' := by
          rintro rfl
          exact hbad c recs hn
        have hmem : r ∈ rs := by
          rcases List.mem_cons.mp hr with h | h
          · exact absurd h hne
          · exact h
        obtain ⟨e, he⟩ := ih cs' hmem hbad
        exact ⟨e, by rw [normLoop, hn, he]⟩

lemma normLoop_city_mem :
    ∀ {rs : List HourlyResponse} {cs : List String}
      {gs : List (List ObservationRecord)},
      normLoop rs cs = Except.ok gs →
      ∀ rec ∈ gs.flatten, rec.city ∈ cs.take rs.length := by
  intro rs
  induction rs with
  | nil =>
    intro cs gs h rec hrec
    rw [normLoop_nil] at h
    injection h with h'
    rw [← h'] at hrec
    simp at hrec
  | cons r rs ih =>
    intro cs gs h rec hrec
    cases cs with
    | nil => exact Except.noConfusion h
    | cons c cs' =>
      rw [normLoop] at h
      cases hn : normalizeOne r c with
      | error e => rw [hn] at h; exact Except.noConfusion h
      | ok recs =>
        rw [hn] at h
        cases hl : normLoop rs cs' with
        | error e => rw [hl] at h; exact Except.noConfusion h
        | ok gs' =>
          rw [hl] at h
          injection h with h'
          subst h'
          rw [List.flatten_cons, List.mem_append] at hrec
          rcases hrec with hrec | hrec
          · rw [normalizeOne_city hn rec hrec]
            simp [List.take_cons]
          · have := ih hl rec hrec
            simp only [List.length_cons, List.take_succ_cons, List.mem_cons]
            exact Or.inr this

end MoroccoWeather

namespace MoroccoWeather

/-! ### Characterization of the full try-block and the entry point -/

lemma concatRows_ok_iff (groups : List (List ObservationRecord))
    (rows : List ObservationRecord) :
    concatRows groups = Except.ok rows ↔ groups ≠ [] ∧ rows = groups.flatten := by
  unfold concatRows
  split_ifs with h
  · constructor
    · intro hc
      exact hc.elim
    · rintro ⟨hne, -⟩
      exact absurd (List.isEmpty_iff.mp h) hne
  · have hne : groups ≠ [] := by
      cases hg : groups.isEmpty
      · exact List.isEmpty_eq_false.mp hg
      · exact absurd hg h
    constructor
    · intro hc
      injection hc with h'
      exact ⟨hne, h'.symm⟩
    · rintro ⟨-, rfl⟩
      rfl

lemma pipelineBody_ok_iff (env : Env) (p : String × String) :
    pipelineBody env = Except.ok p ↔
      ∃ rs gs s, env.fetch = Except.ok rs ∧
        normLoop rs cityNames = Except.ok gs ∧ gs ≠ [] ∧
        env.azureWebJobsStorage = some s ∧ env.blobServiceOk = true ∧
        env.uploadOk = true ∧ p = (blobName env.now, toCsv gs.flatten) := by
  constructor
  · intro h
    cases hf : env.fetch with
    | error e => simp [pipelineBody, hf] at h
    | ok rs =>
      cases hn : normLoop rs cityNames with
      | error e => simp [pipelineBody, hf, hn] at h
      | ok gs =>
        cases hc : concatRows gs with
        | error e => simp [pipelineBody, hf, hn, hc] at h
        | ok finalRows =>
          obtain ⟨hne, hrows⟩ := (concatRows_ok_iff gs finalRows).mp hc
          cases hs : env.azureWebJobsStorage with
          | none => simp [pipelineBody, hf, hn, hc, hs] at h
          | some s =>
            cases hb : env.blobServiceOk with
            | false => simp [pipelineBody, hf, hn, hc, hs, hb] at h
            | true =>
              cases hu : env.uploadOk with
              | false => simp [pipelineBody, hf, hn, hc, hs, hb, hu] at h
              | true =>
                simp only [pipelineBody, hf, hn, hc, hs, hb, hu, if_true,
                  Except.ok.injEq] at h
                exact ⟨rs, gs, s, rfl, hn, hne, rfl, rfl, rfl,
                  by rw [← h, hrows]⟩
  · rintro ⟨rs, gs, s, hf, hn, hne, hs, hb, hu, rfl⟩
    have hc : concatRows gs = Except.ok gs.flatten :=
      (concatRows_ok_iff gs gs.flatten).mpr ⟨hne, rfl⟩
    simp [pipelineBody, hf, hn, hc, hs, hb, hu]

lemma pipelineBody_error_run {env : Env} {e : String}
    (h : pipelineBody env = Except.error e) :
    weather_ingestion_openmeteo env = RunResult.loggedError e := by
  simp [weather_ingestion_openmeteo, h]

lemma artifacts_nil_of_error {env : Env} {e : String}
    (h : pipelineBody env = Except.error e) :
    artifactsOf (weather_ingestion_openmeteo env) = [] := by
  rw [pipelineBody_error_run h]
  rfl

lemma run_success_iff (env : Env) (b c : String) :
    weather_ingestion_openmeteo env = RunResult.success b c ↔
      pipelineBody env = Except.ok (b, c) := by
  unfold weather_ingestion_openmeteo
  cases hp : pipelineBody env with
  | error e => simp
  | ok p =>
    cases p with
    | mk x y =>
      constructor
      · intro h
        injection h with h1 h2
        simp only at h1 h2
        rw [h1, h2]
      · intro h
        injection h with h'
        rw [Prod.mk.injEq] at h'
        simp [h'.1, h'.2]

end MoroccoWeather

namespace MoroccoWeather

/-! ### Claim theorems -/

/-- C2: the batched-mode partition key is a pure function of the run
timestamp: for every UTC timestamp it equals the spec's template
`ingestion-v2/year/month:02/day:02/weather_hour:02minute:02.csv` built from
the timestamp's components, and computing the key twice from the same
timestamp yields the identical string. -/
theorem c2_partition_key_pure (t : UtcNow) :
    blobName t = specPartitionKey t ∧ blobName t = blobName t :=
  ⟨by simp [blobName, specPartitionKey, strftimeHM, String.append_assoc], rfl⟩

/-- C1 (amended): for a sub-response whose sampling interval evenly divides
its window, the normalizer derives the timestamps as the half-open arithmetic
progression from the declared start (inclusive) to the declared end
(exclusive) with step the declared interval, producing exactly
(end - start) / interval records; without divisibility the code instead
produces one record per interval-multiple inside the half-open window. -/
theorem c1_record_count (resp : HourlyResponse) (c : String)
    (recs : List ObservationRecord)
    (h : normalizeOne resp c = Except.ok recs)
    (hdvd : resp.interval ∣ (resp.timeEnd - resp.time)) :
    recs.length = (resp.timeEnd - resp.time) / resp.interval ∧
    recs.map ObservationRecord.datetime_utc =
      (List.range ((resp.timeEnd - resp.time) / resp.interval)).map
        (fun k => resp.time + k * resp.interval) ∧
    ∀ t ∈ recs.map ObservationRecord.datetime_utc,
      resp.time ≤ t ∧ t < resp.timeEnd := by
  have hpos := normalizeOne_interval_pos h
  have hlen := normalizeOne_length h
  have hdr := normalizeOne_datetime h
  have hceil : (resp.timeEnd - resp.time + resp.interval - 1) / resp.interval
      = (resp.timeEnd - resp.time) / resp.interval :=
    ceil_div_eq_of_dvd hpos hdvd
  refine ⟨?_, ?_, ?_⟩
  · rw [hlen, dateRange_length, hceil]
  · rw [hdr]
    unfold dateRange
    rw [hceil]
  · intro t ht
    rw [hdr] at ht
    exact mem_dateRange hpos ht

theorem c1_record_count_witness :
    normalizeOne fixtureResponse "Casablanca" = Except.ok fixtureRecords ∧
    fixtureResponse.interval ∣ (fixtureResponse.timeEnd - fixtureResponse.time) ∧
    fixtureRecords.length =
      (fixtureResponse.timeEnd - fixtureResponse.time) / fixtureResponse.interval :=
  ⟨rfl, by decide,
    (c1_record_count fixtureResponse "Casablanca" fixtureRecords rfl
      (by decide)).1⟩

/-- C1 counterexample: the sub-response with window 5 s and interval 2 s is
normalized to 3 records (timestamps 0, 2, 4), while the claim's formula
(end - start) / interval gives 2. -/
theorem c1_counterexample :
    (∃ recs, normalizeOne raggedWindowResponse "Casablanca" = Except.ok recs ∧
      recs.length = 3) ∧
    (raggedWindowResponse.timeEnd - raggedWindowResponse.time) /
      raggedWindowResponse.interval = 2 ∧ (3 : Nat) ≠ 2 :=
  ⟨⟨_, rfl, rfl⟩, rfl, by decide⟩

/-- C3: in batched mode the fetch is all-or-nothing: if the single upstream
call fails, the run terminates as a logged total failure and writes zero
artifacts to the sink. -/
theorem c3_fetch_all_or_nothing (env : Env) (e : String)
    (hf : env.fetch = Except.error e) :
    weather_ingestion_openmeteo env = RunResult.loggedError e ∧
    artifactsOf (weather_ingestion_openmeteo env) = [] := by
  have hbody : pipelineBody env = Except.error e := by
    simp [pipelineBody, hf]
  exact ⟨pipelineBody_error_run hbody, artifacts_nil_of_error hbody⟩

theorem c3_fetch_all_or_nothing_witness :
    fetchFailEnv.fetch = Except.error "FetchError: HTTPSConnectionPool timeout" ∧
    artifactsOf (weather_ingestion_openmeteo fetchFailEnv) = [] :=
  ⟨rfl, (c3_fetch_all_or_nothing fetchFailEnv _ rfl).2⟩

/-- C4: every error raised inside the try block — during fetch,
normalization, concatenation, environment lookup, storage-client
construction or upload — is caught by the timer entry point, which logs it
and returns a normal RunResult instead of propagating an exception to the
scheduler. -/
theorem c4_catch_all (env : Env) (e : String)
    (h : pipelineBody env = Except.error e) :
    weather_ingestion_openmeteo env = RunResult.loggedError e :=
  pipelineBody_error_run h

theorem c4_catch_all_witness :
    pipelineBody badLengthEnv =
      Except.error "ValueError: All arrays must be of the same length" ∧
    weather_ingestion_openmeteo badLengthEnv =
      RunResult.loggedError "ValueError: All arrays must be of the same length" :=
  ⟨rfl, c4_catch_all badLengthEnv _ rfl⟩

end MoroccoWeather

namespace MoroccoWeather

/-- C5: if any of the 20 hourly variable arrays of any sub-response of a
batched run has a length different from the derived timestamp count,
normalization fails for the whole run (no silent padding) and no artifact is
written for that run. -/
theorem c5_length_mismatch_fatal (env : Env) (responses : List HourlyResponse)
    (r : HourlyResponse) (col : List Rat)
    (hf : env.fetch = Except.ok responses) (hr : r ∈ responses)
    (hcol : col ∈ r.Variables.take 20)
    (hlen : col.length ≠ (dateRange r.time r.timeEnd r.interval).length) :
    artifactsOf (weather_ingestion_openmeteo env) = [] := by
  have hbad : ∀ c recs, normalizeOne r c ≠ Except.ok recs := by
    intro c recs hok
    obtain ⟨-, -, hall, -⟩ := (normalizeOne_ok_iff r c recs).mp hok
    exact hlen (hall col hcol)
  obtain ⟨e, he⟩ := normLoop_error_of_bad cityNames hr hbad
  have hbody : pipelineBody env = Except.error e := by
    simp [pipelineBody, hf, he]
  exact artifacts_nil_of_error hbody

theorem c5_length_mismatch_fatal_witness :
    badLengthEnv.fetch = Except.ok [shortArrayResponse] ∧
    shortArrayResponse ∈ [shortArrayResponse] ∧
    [(0 : Rat)] ∈ shortArrayResponse.Variables.take 20 ∧
    ([(0 : Rat)] : List Rat).length ≠
      (dateRange shortArrayResponse.time shortArrayResponse.timeEnd
        shortArrayResponse.interval).length ∧
    artifactsOf (weather_ingestion_openmeteo badLengthEnv) = [] :=
  ⟨rfl, by decide, by decide, by decide,
    c5_length_mismatch_fatal badLengthEnv [shortArrayResponse]
      shortArrayResponse [(0 : Rat)] rfl (by decide) (by decide) (by decide)⟩

/-- C6: the CSV artifact's header row is exactly `datetime_utc` followed by
the 20 hourly variable names in the enumerated request order followed by
`city`, and in each normalized record the j-th row holds the j-th positional
value of every variable array (in the same order) together with the
originating location's name. -/
theorem c6_csv_schema :
    (∀ rows, toCsv rows =
      "datetime_utc,temperature_2m,relative_humidity_2m,apparent_temperature,precipitation,rain,snowfall,snow_depth,wind_speed_10m,wind_direction_10m,wind_gusts_10m,is_day,dew_point_2m,pressure_msl,surface_pressure,cloud_cover,cloud_cover_low,cloud_cover_mid,cloud_cover_high,shortwave_radiation,direct_radiation,city\n"
        ++ String.join (rows.map (fun r => recordToCsvRow r ++ "\n"))) ∧
    dfColumnNames = "datetime_utc" :: hourlyVariableNames ++ ["city"] ∧
    (∀ resp c recs, normalizeOne resp c = Except.ok recs →
      ∀ j (hj : j < recs.length),
        recs[j].values =
          (resp.Variables.take 20).map (fun col => col.getD j 0) ∧
        recs[j].city = c) := by
  refine ⟨fun rows => rfl, rfl, ?_⟩
  intro resp c recs h j hj
  exact ⟨(normalizeOne_getElem h j hj).2.1, (normalizeOne_getElem h j hj).2.2⟩

theorem c6_csv_schema_witness :
    normalizeOne fixtureResponse "Casablanca" = Except.ok fixtureRecords ∧
    (1 : Nat) < fixtureRecords.length ∧
    (fixtureRecords.get ⟨1, by decide⟩).values =
      (fixtureResponse.Variables.take 20).map (fun col => col.getD 1 0) ∧
    (fixtureRecords.get ⟨1, by decide⟩).city = "Casablanca" :=
  ⟨rfl, by decide,
    (c6_csv_schema.2.2 fixtureResponse "Casablanca" fixtureRecords rfl 1
      (by decide)).1,
    (c6_csv_schema.2.2 fixtureResponse "Casablanca" fixtureRecords rfl 1
      (by decide)).2⟩

end MoroccoWeather

namespace MoroccoWeather

/-- C7: the spec's example scenario: a run at 2024-03-01T14:00:00Z with 20
locations of 24 hourly timestamps each writes exactly one CSV artifact at
`ingestion-v2/2024/03/01/weather_1400.csv` holding 480 data records; and the
2-locations-by-3-timestamps-by-20-variables fixture normalizes to exactly 6
records with the correct location tags and timestamps. -/
theorem c7_example_scenario :
    (∃ csv, weather_ingestion_openmeteo scenarioEnv =
      RunResult.success "ingestion-v2/2024/03/01/weather_1400.csv" csv) ∧
    (artifactsOf (weather_ingestion_openmeteo scenarioEnv)).length = 1 ∧
    (normLoop (List.replicate 20 scenarioResponse) cityNames).map
      (fun gs => gs.flatten.length) = Except.ok 480 ∧
    (normLoop [fixtureResponse, fixtureResponse2] cityNames).map
      (fun gs => gs.flatten.length) = Except.ok 6 ∧
    (normLoop [fixtureResponse, fixtureResponse2] cityNames).map
      (fun gs => gs.flatten.map ObservationRecord.city) =
      Except.ok ["Casablanca", "Casablanca", "Casablanca",
        "Rabat", "Rabat", "Rabat"] ∧
    (normLoop [fixtureResponse, fixtureResponse2] cityNames).map
      (fun gs => gs.flatten.map ObservationRecord.datetime_utc) =
      Except.ok [1709251200, 1709254800, 1709258400,
        1709251200, 1709254800, 1709258400] :=
  ⟨⟨_, rfl⟩, rfl, rfl, rfl, rfl, rfl⟩

/-- C8: in every successful batched run, the CSV payload is the
serialization of the per-location record groups concatenated in registry
order; each group's records are all tagged with the corresponding registry
city, their timestamps strictly ascend, and the first timestamp of a
non-empty group is its sub-response's declared start time. -/
theorem c8_row_ordering (env : Env) (responses : List HourlyResponse)
    (b csv : String)
    (hf : env.fetch = Except.ok responses)
    (hrun : weather_ingestion_openmeteo env = RunResult.success b csv) :
    ∃ gs, normLoop responses cityNames = Except.ok gs ∧
      csv = toCsv gs.flatten ∧ gs.length = responses.length ∧
      ∀ i (hi : i < gs.length) (hri : i < responses.length)
        (hci : i < cityNames.length),
        (∀ rec ∈ gs[i], rec.city = cityNames[i]) ∧
        gs[i].map ObservationRecord.datetime_utc =
          dateRange responses[i].time responses[i].timeEnd
            responses[i].interval ∧
        (∀ j k (hj : j < gs[i].length) (hk : k < gs[i].length), j < k →
          gs[i][j].datetime_utc < gs[i][k].datetime_utc) ∧
        (∀ h0 : 0 < gs[i].length,
          gs[i][0].datetime_utc = responses[i].time) := by
  rw [run_success_iff] at hrun
  obtain ⟨rs, gs, s, hf', hn, hne, -, -, -, hp⟩ :=
    (pipelineBody_ok_iff env (b, csv)).mp hrun
  rw [hf] at hf'
  injection hf' with hrs
  subst hrs
  rw [Prod.mk.injEq] at hp
  refine ⟨gs, hn, hp.2, (normLoop_ok_shape hn).1, ?_⟩
  intro i hi hri hci
  have hok := normLoop_ok_getElem hn i hri hci hi
  have hpos := normalizeOne_interval_pos hok
  refine ⟨normalizeOne_city hok, normalizeOne_datetime hok, ?_, ?_⟩
  · intro j k hj hk hjk
    rw [(normalizeOne_getElem hok j hj).1, (normalizeOne_getElem hok k hk).1]
    exact Nat.add_lt_add_left (mul_lt_mul_of_pos_right hjk hpos) _
  · intro h0
    rw [(normalizeOne_getElem hok 0 h0).1]
    simp

theorem c8_row_ordering_witness :
    twoCityEnv.fetch = Except.ok [fixtureResponse, fixtureResponse2] ∧
    weather_ingestion_openmeteo twoCityEnv =
      RunResult.success "ingestion-v2/2024/03/01/weather_1400.csv"
        (toCsv twoCityGroups.flatten) ∧
    (∃ gs, normLoop [fixtureResponse, fixtureResponse2] cityNames =
        Except.ok gs ∧
      toCsv twoCityGroups.flatten = toCsv gs.flatten ∧
      gs.length = [fixtureResponse, fixtureResponse2].length ∧
      ∀ i (hi : i < gs.length)
        (hri : i < [fixtureResponse, fixtureResponse2].length)
        (hci : i < cityNames.length),
        (∀ rec ∈ gs[i], rec.city = cityNames[i]) ∧
        gs[i].map ObservationRecord.datetime_utc =
          dateRange [fixtureResponse, fixtureResponse2][i].time
            [fixtureResponse, fixtureResponse2][i].timeEnd
            [fixtureResponse, fixtureResponse2][i].interval ∧
        (∀ j k (hj : j < gs[i].length) (hk : k < gs[i].length), j < k →
          gs[i][j].datetime_utc < gs[i][k].datetime_utc) ∧
        (∀ h0 : 0 < gs[i].length,
          gs[i][0].datetime_utc = [fixtureResponse, fixtureResponse2][i].time)) :=
  ⟨rfl, rfl,
    c8_row_ordering twoCityEnv [fixtureResponse, fixtureResponse2]
      "ingestion-v2/2024/03/01/weather_1400.csv"
      (toCsv twoCityGroups.flatten) rfl rfl⟩

end MoroccoWeather

namespace MoroccoWeather

/-- C9: the pipeline performs no completeness check on the batched response:
with 0 < k < 20 well-formed sub-responses (and working storage) one artifact
is still written whose records carry only the first k registry cities; with
more than 20 sub-responses the registry indexing fails, the run is logged as
an error and no artifact is written. -/
theorem c9_no_completeness_check :
    (∀ env responses gs,
      env.fetch = Except.ok responses →
      0 < responses.length → responses.length < 20 →
      normLoop responses cityNames = Except.ok gs →
      env.azureWebJobsStorage ≠ none → env.blobServiceOk = true →
      env.uploadOk = true →
      weather_ingestion_openmeteo env =
        RunResult.success (blobName env.now) (toCsv gs.flatten) ∧
      ∀ rec ∈ gs.flatten, rec.city ∈ cityNames.take responses.length) ∧
    (∀ env responses,
      env.fetch = Except.ok responses → 20 < responses.length →
      artifactsOf (weather_ingestion_openmeteo env) = [] ∧
      ∃ e, weather_ingestion_openmeteo env = RunResult.loggedError e) := by
  constructor
  · intro env responses gs hf hpos hlt hn hs hb hu
    have hlen : gs.length = responses.length := (normLoop_ok_shape hn).1
    have hgs : gs ≠ [] := by
      intro hnil
      rw [hnil] at hlen
      simp at hlen
      omega
    obtain ⟨s, hs'⟩ : ∃ s, env.azureWebJobsStorage = some s := by
      cases h : env.azureWebJobsStorage with
      | none => exact absurd h hs
      | some s => exact ⟨s, rfl⟩
    refine ⟨?_, normLoop_city_mem hn⟩
    rw [run_success_iff]
    exact (pipelineBody_ok_iff env _).mpr
      ⟨responses, gs, s, hf, hn, hgs, hs', hb, hu, rfl⟩
  · intro env responses hf h20
    have hcl : cityNames.length = 20 := rfl
    obtain ⟨e, he⟩ := normLoop_error_of_lt responses cityNames (by omega)
    have hbody : pipelineBody env = Except.error e := by
      simp [pipelineBody, hf, he]
    exact ⟨artifacts_nil_of_error hbody, e, pipelineBody_error_run hbody⟩

theorem c9_no_completeness_check_witness :
    (weather_ingestion_openmeteo twoCityEnv =
      RunResult.success (blobName twoCityEnv.now)
        (toCsv twoCityGroups.flatten) ∧
     ∀ rec ∈ twoCityGroups.flatten, rec.city ∈ cityNames.take 2) ∧
    artifactsOf (weather_ingestion_openmeteo tooManyEnv) = [] ∧
    (∃ e, weather_ingestion_openmeteo tooManyEnv =
      RunResult.loggedError e) :=
  ⟨c9_no_completeness_check.1 twoCityEnv [fixtureResponse, fixtureResponse2]
      twoCityGroups rfl (by decide) (by decide) rfl
      (fun h => Option.noConfusion h) rfl rfl,
    (c9_no_completeness_check.2 tooManyEnv
      (List.replicate 21 fixtureResponse) rfl (by decide)).1,
    (c9_no_completeness_check.2 tooManyEnv
      (List.replicate 21 fixtureResponse) rfl (by decide)).2⟩

/-- C10: the run is deterministic in its inputs: two executions given
identical provider responses and an identical clock reading that both
succeed write the identical blob path and a byte-identical CSV payload — no
other part of the environment influences the artifact. -/
theorem c10_deterministic (env1 env2 : Env) (b1 c1 b2 c2 : String)
    (hfetch : env1.fetch = env2.fetch) (hnow : env1.now = env2.now)
    (h1 : weather_ingestion_openmeteo env1 = RunResult.success b1 c1)
    (h2 : weather_ingestion_openmeteo env2 = RunResult.success b2 c2) :
    b1 = b2 ∧ c1 = c2 := by
  rw [run_success_iff] at h1 h2
  obtain ⟨rs1, gs1, s1, hf1, hn1, -, -, -, -, hp1⟩ :=
    (pipelineBody_ok_iff env1 _).mp h1
  obtain ⟨rs2, gs2, s2, hf2, hn2, -, -, -, -, hp2⟩ :=
    (pipelineBody_ok_iff env2 _).mp h2
  rw [hfetch, hf2] at hf1
  injection hf1 with hrs
  subst hrs
  rw [hn1] at hn2
  injection hn2 with hgs
  subst hgs
  rw [Prod.mk.injEq] at hp1 hp2
  refine ⟨?_, hp1.2.trans hp2.2.symm⟩
  rw [hp1.1, hp2.1, hnow]

theorem c10_deterministic_witness :
    twoCityEnv.fetch = twoCityEnvAlt.fetch ∧
    twoCityEnv.now = twoCityEnvAlt.now ∧
    weather_ingestion_openmeteo twoCityEnvAlt =
      RunResult.success "ingestion-v2/2024/03/01/weather_1400.csv"
        (toCsv twoCityGroups.flatten) ∧
    ("ingestion-v2/2024/03/01/weather_1400.csv" =
      "ingestion-v2/2024/03/01/weather_1400.csv" ∧
     toCsv twoCityGroups.flatten = toCsv twoCityGroups.flatten) :=
  ⟨rfl, rfl, rfl,
    c10_deterministic twoCityEnv twoCityEnvAlt
      "ingestion-v2/2024/03/01/weather_1400.csv"
      (toCsv twoCityGroups.flatten)
      "ingestion-v2/2024/03/01/weather_1400.csv"
      (toCsv twoCityGroups.flatten) rfl rfl rfl rfl⟩

end MoroccoWeather
